import Mathlib

/-!
Shallow embedding of src/src/main.rs: a single-window skia/glutin/winit
program. The data model and operations below follow the source closely;
opaque GPU and platform handles (GL function pointers, the skia
DirectContext, the winit Window object) are elided or reduced to the
fields the program actually reads, and the platform-dependent fallible
primitives (create_context, swap_buffers) are modelled as explicit
parameters so their success and failure branches can be analysed.
-/

namespace SkiaGlWindow

/-- A graphics configuration candidate, as enumerated by the display
system. Only the fields read by main.rs are kept: the fallible
transparency query (Option, for unwrap_or) and the multisample count. -/
structure Config where
  supports_transparency : Option Bool
  num_samples : Nat
deriving DecidableEq

/-- The pairwise tie-break closure passed to configs.reduce in main.rs
lines 44-53: take the candidate when it supports transparency and the
accumulator does not, or when its multisample count is strictly lower;
otherwise keep the accumulator. -/
def pickConfig (accum config : Config) : Config :=
  let transparency_check :=
    (config.supports_transparency.getD false) &&
      !(accum.supports_transparency.getD false)
  if transparency_check || config.num_samples < accum.num_samples then config
  else accum

/-- Iterator.reduce over the candidate list: none on the empty list,
otherwise a left fold of pickConfig seeded with the first candidate. -/
def reduceConfigs : List Config → Option Config
  | [] => none
  | c :: cs => some (cs.foldl pickConfig c)

/-- The full configuration selection including the final unwrap of
main.rs line 54: unwrapping none is the fatal abort for an empty
candidate set. -/
def selectedConfig (configs : List Config) : Except String Config :=
  match reduceConfigs configs with
  | some c => Except.ok c
  | none => Except.error "called unwrap on None"

/-- The context API request carried by the attributes (glutin
ContextApi). -/
inductive ContextApi
  | OpenGl (version : Option Nat)
  | Gles (version : Option Nat)
deriving DecidableEq

/-- Context attributes: an optional explicit API request and the raw
window handle the builder was given. -/
structure ContextAttrs where
  api : Option ContextApi
  raw_window_handle : Option Nat
deriving DecidableEq

/-- ContextAttributesBuilder.new().build(Some(raw_window_handle)), main.rs
line 60: no explicit API selection. -/
def context_attributes (raw_window_handle : Nat) : ContextAttrs :=
  { api := none, raw_window_handle := some raw_window_handle }

/-- The fallback attributes of main.rs lines 61-63: an explicit GLES
request against the same window handle. -/
def fallback_context_attributes (raw_window_handle : Nat) : ContextAttrs :=
  { api := some (ContextApi.Gles none),
    raw_window_handle := some raw_window_handle }

/-- An established rendering context, recording the configuration and the
attributes it was created from. -/
structure RenderingContext where
  cfg : Config
  attrs : ContextAttrs
deriving DecidableEq

/-- Context establishment, main.rs lines 64-74. The platform primitive
display.create_context is modelled as an oracle argument since its outcome
is platform dependent. The result records the attribute sets attempted, in
order, together with the outcome; the expect on the fallback attempt is
the fatal path. -/
def not_current_gl_context
    (create_context : Config → ContextAttrs → Option RenderingContext)
    (gl_config : Config) (raw_window_handle : Nat) :
    List ContextAttrs × Except String RenderingContext :=
  match create_context gl_config (context_attributes raw_window_handle) with
  | some c => ([context_attributes raw_window_handle], Except.ok c)
  | none =>
      match create_context gl_config
          (fallback_context_attributes raw_window_handle) with
      | some c =>
          ([context_attributes raw_window_handle,
            fallback_context_attributes raw_window_handle], Except.ok c)
      | none =>
          ([context_attributes raw_window_handle,
            fallback_context_attributes raw_window_handle],
           Except.error "failed to create context")

/-- The framebuffer snapshot of main.rs lines 111-119: framebuffer object
id and pixel format. -/
structure FramebufferInfo where
  fboid : Nat
  format : Nat
deriving DecidableEq

/-- The skia GPU drawing surface, reduced to its pixel dimensions. -/
structure SkiaSurface where
  width : Nat
  height : Nat
deriving DecidableEq

/-- create_surface from main.rs lines 125-144. The backend render target
size is the literal pair (600, 300) from line 131; the function neither
takes nor reads the window. The gr_context argument of the source is
elided because it does not influence the surface dimensions. -/
def create_surface (fb_info : FramebufferInfo)
    (num_samples stencil_size : Nat) : SkiaSurface :=
  let size := (600, 300)
  { width := size.1, height := size.2 }

/-- The glutin window surface (presentation surface), reduced to its pixel
dimensions; each dimension is a NonZeroU32 in the source. -/
structure GlutinSurface where
  width : Nat
  height : Nat
deriving DecidableEq

/-- NonZeroU32 construction: some n for nonzero n, none for 0. -/
def NonZeroU32.new (n : Nat) : Option Nat :=
  if n = 0 then none else some n

/-- The Env struct of main.rs lines 150-157, reduced to the two surfaces;
the GL context, skia context and window fields are opaque handles that
the event handlers never resize or replace. -/
structure Env where
  surface : SkiaSurface
  gl_surface : GlutinSurface
deriving DecidableEq

/-- The events distinguished by the match in the event loop closure. -/
inductive Event
  | CloseRequested
  | Resized (width height : Nat)
  | RedrawRequested
  | Other
deriving DecidableEq

/-- Observable actions an event handler performs, in order. -/
inductive Action
  | recreateSurface (width height : Nat)
  | resizeGlSurface (width height : Nat)
  | draw (width height : Nat)
  | flushAndSubmit
  | swapBuffers
  | exitLoop
deriving DecidableEq

/-- Recognizer for the buffer-swap action. -/
def isSwap : Action → Bool
  | Action.swapBuffers => true
  | _ => false

/-- One iteration of the event loop closure, main.rs lines 171-216, on the
events it distinguishes. Returns the actions performed in order and the
outcome: ok with the updated environment, or error for the fatal unwrap
paths. swap_ok models whether the platform swap_buffers call succeeds. -/
def handleEvent (fb_info : FramebufferInfo) (num_samples stencil_size : Nat)
    (swap_ok : Bool) (env : Env) : Event → List Action × Except String Env
  | Event.CloseRequested => ([Action.exitLoop], Except.ok env)
  | Event.Resized w h =>
      let s := create_surface fb_info num_samples stencil_size
      match NonZeroU32.new (w.max 1), NonZeroU32.new (h.max 1) with
      | some nzw, some nzh =>
          ([Action.recreateSurface s.width s.height,
            Action.resizeGlSurface nzw nzh],
           Except.ok { env with surface := s,
                                gl_surface := { width := nzw, height := nzh } })
      | _, _ =>
          ([Action.recreateSurface s.width s.height],
           Except.error "called unwrap on None")
  | Event.RedrawRequested =>
      ([Action.draw env.surface.width env.surface.height,
        Action.flushAndSubmit, Action.swapBuffers],
       if swap_ok then Except.ok env
       else Except.error "swap_buffers failed")
  | Event.Other => ([], Except.ok env)

/-- Run the single-threaded loop over a finite delivered event list,
threading the environment and concatenating the action traces in delivery
order. CloseRequested sets ControlFlow.Exit, so no later event is
processed; a fatal error aborts processing. -/
def processEvents (fb_info : FramebufferInfo) (num_samples stencil_size : Nat)
    (swap_ok : Bool) (env : Env) : List Event → List Action × Except String Env
  | [] => ([], Except.ok env)
  | e :: es =>
      match handleEvent fb_info num_samples stencil_size swap_ok env e with
      | (acts, Except.error msg) => (acts, Except.error msg)
      | (acts, Except.ok env1) =>
          if e = Event.CloseRequested then (acts, Except.ok env1)
          else
            let rest := processEvents fb_info num_samples stencil_size swap_ok env1 es
            (acts ++ rest.1, rest.2)

/-- The environment right before el.run: the initial skia surface from
main.rs line 148 and the 600x300 glutin window surface from lines 76-87. -/
def initialEnv (fb_info : FramebufferInfo)
    (num_samples stencil_size : Nat) : Env :=
  { surface := create_surface fb_info num_samples stencil_size,
    gl_surface := { width := 600, height := 300 } }

/-- The top-level statements of main, in program order. dropAdapter is the
hypothetical drop of the adapter binding; it is listed so its absence from
mainSteps can be stated. -/
inductive MainStep
  | buildEventLoop
  | buildWindowAndSelectConfig
  | buildContextAttrs
  | createNotCurrentContext
  | createGlWindowSurface
  | makeContextCurrent
  | loadGlAndMakeInterface
  | captureFramebufferInfo
  | setInnerSize
  | createInitialSkiaSurface
  | constructAdapter
  | constructEnv
  | runEventLoop
  | dropAdapter
deriving DecidableEq

/-- main in program order, main.rs lines 33-216. The adapter is
constructed at line 161, before the Env at line 163 and before el.run at
line 171; no drop of the adapter binding occurs before el.run, and el.run
never returns (the winit 0.28 EventLoop.run signature diverges), so the
adapter value stays alive for the whole life of the loop. -/
def mainSteps : List MainStep :=
  [MainStep.buildEventLoop, MainStep.buildWindowAndSelectConfig,
   MainStep.buildContextAttrs, MainStep.createNotCurrentContext,
   MainStep.createGlWindowSurface, MainStep.makeContextCurrent,
   MainStep.loadGlAndMakeInterface, MainStep.captureFramebufferInfo,
   MainStep.setInnerSize, MainStep.createInitialSkiaSurface,
   MainStep.constructAdapter, MainStep.constructEnv, MainStep.runEventLoop]

/-- A concrete create-context oracle for which the primary attempt (no
explicit API) fails and the explicit-API fallback succeeds. -/
def ccFallbackOnly : Config → ContextAttrs → Option RenderingContext :=
  fun cfg attrs =>
    match attrs.api with
    | none => none
    | some _ => some { cfg := cfg, attrs := attrs }

/-- A sample configuration used in concrete witnesses. -/
def cfgW : Config := { supports_transparency := some true, num_samples := 0 }

/-- The surface-size agreement check between the skia drawing surface and
the glutin presentation surface of an environment. -/
def sameSize (env : Env) : Bool :=
  env.surface.width == env.gl_surface.width &&
    env.surface.height == env.gl_surface.height

/-- The clamped NonZeroU32 construction used by the resize handler never
yields none. -/
theorem nonzero_clamp (w : Nat) :
    NonZeroU32.new (w.max 1) = some (w.max 1) := by
  have h1 : 1 ≤ w.max 1 := Nat.le_max_right w 1
  have h0 : ¬ (w.max 1 = 0) := by omega
  simp [NonZeroU32.new, h0]

/-- Evaluation of the Resized branch of the event handler: the skia
surface is recreated at the fixed 600x300 and the glutin surface is
resized to the clamped requested dimensions, in that order. -/
theorem handleEvent_resized_eq (fb_info : FramebufferInfo)
    (num_samples stencil_size : Nat) (swap_ok : Bool) (env : Env) (w h : Nat) :
    handleEvent fb_info num_samples stencil_size swap_ok env (Event.Resized w h) =
      ([Action.recreateSurface 600 300,
        Action.resizeGlSurface (w.max 1) (h.max 1)],
       Except.ok { surface := { width := 600, height := 300 },
                   gl_surface := { width := w.max 1, height := h.max 1 } }) := by
  simp [handleEvent, create_surface, nonzero_clamp]

/-- Claim C1, counterexample: from the startup state, processing
Resized 800 400 leaves the skia drawing surface at 600x300 while the
glutin presentation surface becomes 800x400, so after this resize event
the two surfaces do not have equal pixel dimensions. -/
theorem resize_surface_mismatch_cex :
    (processEvents { fboid := 0, format := 0 } 0 8 true
        (initialEnv { fboid := 0, format := 0 } 0 8) [Event.Resized 800 400]).2 =
      Except.ok { surface := { width := 600, height := 300 },
                  gl_surface := { width := 800, height := 400 } } ∧
    sameSize { surface := { width := 600, height := 300 },
               gl_surface := { width := 800, height := 400 } } = false :=
  ⟨rfl, rfl⟩

/-- Claim C1 (amended): after a Resized(w, h) event is fully processed the
skia drawing surface has the fixed dimensions 600x300 while the glutin
presentation surface has the clamped dimensions (max w 1, max h 1); the
two agree exactly when the clamped size is 600x300. -/
theorem resize_post_state (fb_info : FramebufferInfo)
    (num_samples stencil_size : Nat) (swap_ok : Bool) (env : Env) (w h : Nat) :
    (handleEvent fb_info num_samples stencil_size swap_ok env
        (Event.Resized w h)).2 =
      Except.ok { surface := { width := 600, height := 300 },
                  gl_surface := { width := w.max 1, height := h.max 1 } } ∧
    (sameSize { surface := { width := 600, height := 300 },
                gl_surface := { width := w.max 1, height := h.max 1 } } = true ↔
      (w.max 1 = 600 ∧ h.max 1 = 300)) := by
  constructor
  · rw [handleEvent_resized_eq]
  · simp only [sameSize, Bool.and_eq_true, beq_iff_eq]
    exact ⟨fun p => ⟨p.1.symm, p.2.symm⟩, fun p => ⟨p.1.symm, p.2.symm⟩⟩

/-- Claim C2, counterexample: with the window at 800x400 at the moment of
the call, create_surface still returns a 600x300 surface, not 800x400;
the function has no access to the window size at all. -/
theorem create_surface_fixed_size_cex :
    (create_surface { fboid := 0, format := 0 } 4 8).width = 600 ∧
    (create_surface { fboid := 0, format := 0 } 4 8).height = 300 ∧
    ¬ ((create_surface { fboid := 0, format := 0 } 4 8).width = 800 ∧
       (create_surface { fboid := 0, format := 0 } 4 8).height = 400) := by
  decide

/-- Claim C2 (amended): create_surface sizes the backend render target
from the constant (600, 300) written into it; for all arguments it
returns a surface of exactly those dimensions, independent of the current
window size, which it neither receives nor reads. -/
theorem create_surface_const (fb_info : FramebufferInfo)
    (num_samples stencil_size : Nat) :
    create_surface fb_info num_samples stencil_size =
      { width := 600, height := 300 } := rfl

/-- Claim C3, counterexample: on the candidate set with a transparent
4-sample configuration followed by a non-transparent 0-sample one, the
reduction selects the non-transparent configuration even though another
candidate supports transparency, so transparency support does not
strictly dominate lower multisample count. -/
theorem tiebreak_transparency_not_dominant_cex :
    reduceConfigs [{ supports_transparency := some true, num_samples := 4 },
                   { supports_transparency := some false, num_samples := 0 }] =
      some { supports_transparency := some false, num_samples := 0 } ∧
    ({ supports_transparency := some true, num_samples := 4 } : Config) ∈
      [({ supports_transparency := some true, num_samples := 4 } : Config),
       { supports_transparency := some false, num_samples := 0 }] ∧
    (({ supports_transparency := some false, num_samples := 0 } :
        Config).supports_transparency.getD false) = false ∧
    (({ supports_transparency := some true, num_samples := 4 } :
        Config).supports_transparency.getD false) = true := by
  decide

/-- Claim C3 (amended): transparency preference holds only pairwise: in
each single reduction step a candidate that supports transparency is
always chosen over an accumulator that does not, whatever the sample
counts; it does not globally dominate across the fold. -/
theorem tiebreak_pairwise_transparency (accum config : Config)
    (hc : config.supports_transparency.getD false = true)
    (ha : accum.supports_transparency.getD false = false) :
    pickConfig accum config = config := by
  simp [pickConfig, hc, ha]

/-- Concrete instance of the pairwise transparency preference. -/
theorem tiebreak_pairwise_transparency_witness :
    pickConfig { supports_transparency := some false, num_samples := 0 }
      { supports_transparency := some true, num_samples := 4 } =
      { supports_transparency := some true, num_samples := 4 } :=
  tiebreak_pairwise_transparency
    { supports_transparency := some false, num_samples := 0 }
    { supports_transparency := some true, num_samples := 4 } rfl rfl

/-- Claim C4: for every requested size, including 0x0, the glutin
presentation surface dimensions after the resize event are the clamped
values max w 1 and max h 1, and each is at least 1. -/
theorem resize_clamp_ge_one (fb_info : FramebufferInfo)
    (num_samples stencil_size : Nat) (swap_ok : Bool) (env : Env) (w h : Nat) :
    (handleEvent fb_info num_samples stencil_size swap_ok env
        (Event.Resized w h)).2 =
      Except.ok { surface := { width := 600, height := 300 },
                  gl_surface := { width := w.max 1, height := h.max 1 } } ∧
    1 ≤ w.max 1 ∧ 1 ≤ h.max 1 :=
  ⟨by rw [handleEvent_resized_eq], Nat.le_max_right w 1, Nat.le_max_right h 1⟩

/-- Claim C5: context establishment attempts the primary attributes (no
explicit API) first and returns that context when it succeeds; exactly
when the primary attempt fails it retries once with the explicit GLES
fallback attributes, built against the same configuration and the same
window handle; when both attempts fail the result is the fatal error and
no context is produced. -/
theorem context_fallback_order
    (cc : Config → ContextAttrs → Option RenderingContext)
    (gl_config : Config) (rwh : Nat) :
    (∀ c, cc gl_config (context_attributes rwh) = some c →
      not_current_gl_context cc gl_config rwh =
        ([context_attributes rwh], Except.ok c)) ∧
    (∀ c, cc gl_config (context_attributes rwh) = none →
      cc gl_config (fallback_context_attributes rwh) = some c →
      not_current_gl_context cc gl_config rwh =
        ([context_attributes rwh, fallback_context_attributes rwh],
         Except.ok c)) ∧
    (cc gl_config (context_attributes rwh) = none →
      cc gl_config (fallback_context_attributes rwh) = none →
      not_current_gl_context cc gl_config rwh =
        ([context_attributes rwh, fallback_context_attributes rwh],
         Except.error "failed to create context")) ∧
    (context_attributes rwh).api = none ∧
    (fallback_context_attributes rwh).api = some (ContextApi.Gles none) ∧
    (context_attributes rwh).raw_window_handle = some rwh ∧
    (fallback_context_attributes rwh).raw_window_handle = some rwh := by
  refine ⟨?_, ?_, ?_, rfl, rfl, rfl, rfl⟩
  · intro c hc
    simp [not_current_gl_context, hc]
  · intro c hp hf
    simp [not_current_gl_context, hp, hf]
  · intro hp hf
    simp [not_current_gl_context, hp, hf]

/-- Concrete fallback scenario: the primary attempt fails and the context
is established through the GLES fallback attributes. -/
theorem context_fallback_order_witness :
    not_current_gl_context ccFallbackOnly cfgW 7 =
      ([context_attributes 7, fallback_context_attributes 7],
       Except.ok { cfg := cfgW, attrs := fallback_context_attributes 7 }) :=
  (context_fallback_order ccFallbackOnly cfgW 7).2.1
    { cfg := cfgW, attrs := fallback_context_attributes 7 } rfl rfl

/-- Claim C6: processing Resized(w, h) followed by RedrawRequested yields
the trace in which the skia surface recreation comes strictly before the
glutin presentation-surface resize, both complete before any redraw
action, and the draw action uses the post-resize surface dimensions
recorded in the final environment. -/
theorem resize_then_redraw_trace (fb_info : FramebufferInfo)
    (num_samples stencil_size : Nat) (env : Env) (w h : Nat) :
    processEvents fb_info num_samples stencil_size true env
        [Event.Resized w h, Event.RedrawRequested] =
      ([Action.recreateSurface 600 300,
        Action.resizeGlSurface (w.max 1) (h.max 1),
        Action.draw 600 300, Action.flushAndSubmit, Action.swapBuffers],
       Except.ok { surface := { width := 600, height := 300 },
                   gl_surface := { width := w.max 1, height := h.max 1 } }) := by
  simp only [processEvents, handleEvent_resized_eq]
  simp [handleEvent]

/-- Claim C7: on every RedrawRequested event the handler draws against
the current skia surface, then flushes and submits, then swaps buffers,
with exactly one swap action in the trace; the outcome is ok when the
swap succeeds and the fatal error when it fails. -/
theorem redraw_trace_swap_once (fb_info : FramebufferInfo)
    (num_samples stencil_size : Nat) (swap_ok : Bool) (env : Env) :
    handleEvent fb_info num_samples stencil_size swap_ok env
        Event.RedrawRequested =
      ([Action.draw env.surface.width env.surface.height,
        Action.flushAndSubmit, Action.swapBuffers],
       if swap_ok then Except.ok env
       else Except.error "swap_buffers failed") ∧
    ([Action.draw env.surface.width env.surface.height,
      Action.flushAndSubmit, Action.swapBuffers].countP isSwap) = 1 :=
  ⟨rfl, rfl⟩

/-- Claim C8: configuration selection on the empty candidate set does not
return a configuration but hits the fatal unwrap, while every non-empty
candidate set yields a configuration. -/
theorem empty_config_set_fatal :
    selectedConfig [] = Except.error "called unwrap on None" ∧
    ∀ c cs, ∃ cfg, selectedConfig (c :: cs) = Except.ok cfg :=
  ⟨rfl, fun c cs => ⟨cs.foldl pickConfig c, rfl⟩⟩

/-- Claim C9: in the program order of main, the accessibility adapter is
constructed strictly before the event loop run call, the run call is the
last step of main, and no drop of the adapter binding occurs, so the
adapter value stays alive for the entire lifetime of the loop. -/
theorem adapter_before_event_loop :
    mainSteps.indexOf MainStep.constructAdapter <
      mainSteps.indexOf MainStep.runEventLoop ∧
    MainStep.constructAdapter ∈ mainSteps ∧
    mainSteps.getLast? = some MainStep.runEventLoop ∧
    MainStep.dropAdapter ∉ mainSteps := by
  decide

/-- Claim C10: for arbitrary dimensions the clamped NonZeroU32
constructions in the resize handler always succeed, so the unwrap error
branch is unreachable and the Resized handler is total: it always ends in
the ok outcome. -/
theorem resize_nonzero_total (fb_info : FramebufferInfo)
    (num_samples stencil_size : Nat) (swap_ok : Bool) (env : Env) (w h : Nat) :
    NonZeroU32.new (w.max 1) = some (w.max 1) ∧
    NonZeroU32.new (h.max 1) = some (h.max 1) ∧
    (handleEvent fb_info num_samples stencil_size swap_ok env
        (Event.Resized w h)).2 =
      Except.ok { surface := { width := 600, height := 300 },
                  gl_surface := { width := w.max 1, height := h.max 1 } } :=
  ⟨nonzero_clamp w, nonzero_clamp h, by rw [handleEvent_resized_eq]⟩

end SkiaGlWindow
